import Mathlib

/-!
Verification of the blockdata constants module of rust-tapyrus
(src/blockdata/constants.rs): the genesis transaction, the per-network
genesis block, and the consensus numeric limits.

The module under verification lives in `constants.rs`.  Its data model
(Block, BlockHeader, Transaction, TxIn, TxOut, OutPoint, Script, Signature,
Network), the script builder, the hex decoder and the transaction-identifier
hashes are external collaborators declared in other files of the repository;
those are modelled here from the specification's data-model and interface
sections and are marked `Modelled from the spec:` in their doc comments.
-/

namespace Tapyrus

/-- Modelled from the spec: closed enumeration of the four supported chain
variants (`network::constants::Network`). -/
inductive Network where
  | Bitcoin
  | Testnet
  | Regtest
  | Paradium
deriving DecidableEq, Repr

/-- The maximum allowable sequence number (`MAX_SEQUENCE: u32 = 0xFFFFFFFF`). -/
def MAX_SEQUENCE : Nat := 0xFFFFFFFF

/-- How many satoshis are in one coin (`COIN_VALUE: u64 = 100_000_000`). -/
def COIN_VALUE : Nat := 100000000

/-- The maximum allowed weight for a block (`MAX_BLOCK_WEIGHT: u32 = 4_000_000`). -/
def MAX_BLOCK_WEIGHT : Nat := 4000000

/-- The minimum transaction weight (`MIN_TRANSACTION_WEIGHT: u32 = 4 * 60`). -/
def MIN_TRANSACTION_WEIGHT : Nat := 4 * 60

/-- `max_money(_: Network) -> u64`: the maximum value allowed in an output,
`21_000_000 * COIN_VALUE` for every network. -/
def max_money (_ : Network) : Nat := 21000000 * COIN_VALUE

/-- Modelled from the spec: a script is a canonical byte sequence; bytes are
naturals below 256. -/
def Script : Type := List Nat
deriving DecidableEq, Inhabited

/-- Modelled from the spec: `Script::new()` is the empty script. -/
def Script.new : Script := []

/-- Modelled from the spec: reference to a previous transaction output,
a 256-bit identifier (as a natural below 2^256) plus a 32-bit index. -/
structure OutPoint where
  txid : Nat
  vout : Nat
deriving DecidableEq, Repr, Inhabited

/-- Modelled from the spec: `OutPoint::null()` is the all-zero identifier with
vout `0xFFFFFFFF`, marking a coinbase/genesis input. -/
def OutPoint.null : OutPoint := { txid := 0, vout := 0xFFFFFFFF }

/-- Modelled from the spec: a transaction input. -/
structure TxIn where
  previous_output : OutPoint
  script_sig : Script
  sequence : Nat
  witness : List (List Nat)
deriving DecidableEq, Inhabited

/-- Modelled from the spec: a transaction output. -/
structure TxOut where
  value : Nat
  script_pubkey : Script
deriving DecidableEq, Inhabited

/-- Modelled from the spec: a transaction with version, lock time and ordered
inputs and outputs. -/
structure Transaction where
  version : Int
  lock_time : Nat
  input : List TxIn
  output : List TxOut
deriving DecidableEq, Inhabited

/-- Modelled from the spec: the aggregate-signature wrapper stored in a block
header's `proof` field (`blockdata::block::Signature`). -/
structure Signature where
  signature : Script
deriving DecidableEq, Inhabited

/-- Modelled from the spec: a block header for the federated consensus scheme.
256-bit identifiers are naturals below 2^256; the default identifier is 0. -/
structure BlockHeader where
  version : Int
  prev_blockhash : Nat
  merkle_root : Nat
  im_merkle_root : Nat
  time : Nat
  agg_pubkey : List Nat
  proof : Signature
deriving DecidableEq, Inhabited

/-- Modelled from the spec: a block is a header plus an ordered transaction
list. -/
structure Block where
  header : BlockHeader
  txdata : List Transaction
deriving DecidableEq, Inhabited

/-- Little-endian byte decomposition of a positive natural, one byte minimum,
as many bytes as the magnitude needs. -/
def leBytes (n : Nat) : List Nat :=
  if h : n ≤ 0xFF then [n]
  else n % 256 :: leBytes (n / 256)
termination_by n
decreasing_by exact Nat.div_lt_self (by omega) (by omega)

/-- Modelled from the spec: the minimal-length signed little-endian integer
encoding used by consensus scripts — empty for zero, and an extra sign byte
when the high bit of the last magnitude byte would otherwise be mistaken for
a sign flag (`script::Builder::push_scriptint`'s underlying encoder). -/
def build_scriptint (n : Int) : List Nat :=
  if n = 0 then []
  else
    let mag := leBytes n.natAbs
    if 0x80 ≤ mag.getLastD 0 then
      mag ++ [if n < 0 then 0x80 else 0]
    else if n < 0 then
      mag.dropLast ++ [mag.getLastD 0 + 0x80]
    else mag

/-- Modelled from the spec: the consuming script builder — an append-only
byte accumulator (`script::Builder`). -/
structure Builder where
  bytes : List Nat
deriving DecidableEq

/-- Modelled from the spec: `script::Builder::new()` starts empty. -/
def Builder.new : Builder := { bytes := [] }

/-- Modelled from the spec: `push_slice` emits a direct length byte for
slices up to 75 bytes, or a designated one-, two- or four-byte-length
pushdata opcode for longer slices, then the raw bytes. -/
def Builder.push_slice (b : Builder) (data : List Nat) : Builder :=
  { bytes := b.bytes ++
      (if data.length ≤ 75 then [data.length]
       else if data.length ≤ 0xFF then [0x4c, data.length]
       else if data.length ≤ 0xFFFF then [0x4d, data.length % 256, data.length / 256]
       else [0x4e, data.length % 256, data.length / 256 % 256,
             data.length / 2 ^ 16 % 256, data.length / 2 ^ 24 % 256]) ++ data }

/-- Modelled from the spec: `push_scriptint` pushes the minimal signed
little-endian encoding of the integer as a slice. -/
def Builder.push_scriptint (b : Builder) (n : Int) : Builder :=
  b.push_slice (build_scriptint n)

/-- Modelled from the spec: `push_opcode` appends a single one-byte opcode
verbatim. -/
def Builder.push_opcode (b : Builder) (op : Nat) : Builder :=
  { bytes := b.bytes ++ [op] }

/-- Modelled from the spec: `into_script` finalizes the builder into an
immutable script value. -/
def Builder.into_script (b : Builder) : Script := b.bytes

/-- Modelled from the spec: `opcodes::all::OP_CHECKSIG` is the one-byte
checksig opcode, 0xac. -/
def OP_CHECKSIG : Nat := 0xac

/-- Modelled from the spec: value of one hexadecimal digit character, failing
on any non-hex character. -/
def hexDigit (c : Char) : Option Nat :=
  if '0' ≤ c ∧ c ≤ '9' then some (c.toNat - Char.toNat '0')
  else if 'a' ≤ c ∧ c ≤ 'f' then some (c.toNat - Char.toNat 'a' + 10)
  else if 'A' ≤ c ∧ c ≤ 'F' then some (c.toNat - Char.toNat 'A' + 10)
  else none

/-- Modelled from the spec: decode a list of hex characters two at a time into
bytes, failing on an odd length or a malformed digit. -/
def hexBytesAux : List Char → Option (List Nat)
  | [] => some []
  | [_] => none
  | c1 :: c2 :: rest =>
    match hexDigit c1, hexDigit c2, hexBytesAux rest with
    | some hi, some lo, some r => some ((16 * hi + lo) :: r)
    | _, _, _ => none

/-- Modelled from the spec: `util::misc::hex_bytes(string)` returns the raw
bytes of a hex string, failing on malformed input. -/
def hex_bytes (s : String) : Option (List Nat) := hexBytesAux s.toList

/-- Little-endian bytes of a natural, exactly `k` bytes. -/
def natLE (k n : Nat) : List Nat := (List.range k).map fun i => n / 256 ^ i % 256

/-- A 32-bit unsigned little-endian field. -/
def u32le (n : Nat) : List Nat := natLE 4 n

/-- A 32-bit signed little-endian field (two's complement). -/
def i32le (n : Int) : List Nat := u32le (n % (2 ^ 32 : Int)).toNat

/-- A length-prefixed byte sequence field. -/
def varBytes (b : List Nat) : List Nat := b.length :: b

/-- Modelled from the spec: serialization of one input including its
signature-bearing `script_sig`. -/
def TxIn.serializeFull (t : TxIn) : List Nat :=
  natLE 32 t.previous_output.txid ++ u32le t.previous_output.vout ++
    varBytes t.script_sig ++ u32le t.sequence

/-- Modelled from the spec: signature-stripped serialization of one input —
the `script_sig` is excluded/normalized to empty. -/
def TxIn.serializeStripped (t : TxIn) : List Nat :=
  natLE 32 t.previous_output.txid ++ u32le t.previous_output.vout ++
    varBytes [] ++ u32le t.sequence

/-- Serialization of one output. -/
def TxOut.serialize (t : TxOut) : List Nat :=
  natLE 8 t.value ++ varBytes t.script_pubkey

/-- Modelled from the spec: full serialization of a transaction, including
witness and signature-bearing fields. -/
def Transaction.serializeFull (t : Transaction) : List Nat :=
  i32le t.version ++
    varBytes (t.input.map TxIn.serializeFull).flatten ++
    varBytes (t.output.map TxOut.serialize).flatten ++
    varBytes (t.input.map fun i => (i.witness.map varBytes).flatten).flatten ++
    u32le t.lock_time

/-- Modelled from the spec: signature-stripped serialization of a transaction,
excluding witness data and signature scripts. -/
def Transaction.serializeStripped (t : Transaction) : List Nat :=
  i32le t.version ++
    varBytes (t.input.map TxIn.serializeStripped).flatten ++
    varBytes (t.output.map TxOut.serialize).flatten ++
    u32le t.lock_time

/-- Modelled from the spec: the external 256-bit double-hash identifier
primitive over a serialized byte sequence; a black-box collaborator, modelled
as a deterministic stand-in fold reduced modulo 2^256. -/
def hash256 (bytes : List Nat) : Nat :=
  (bytes.foldl (fun a b => a * 257 + b + 1) 0) % 2 ^ 256

/-- Modelled from the spec: the mutable transaction identifier — the hash of
the full serialization including witness/signature-bearing fields. -/
def Transaction.txid (t : Transaction) : Nat := hash256 t.serializeFull

/-- Modelled from the spec: the immutable transaction identifier — the hash
of the signature-stripped serialization. -/
def Transaction.ntxid (t : Transaction) : Nat := hash256 t.serializeStripped

/-- The fixed 130-character hex literal of the 65-byte uncompressed genesis
public key embedded in `bitcoin_genesis_tx`. -/
def genesisPubkeyHex : String :=
  "04678afdb0fe5548271967f1a67130b7105cd6a828e03909a67962e0ea1f61deb649f6bc3f4cef38c4f35504e51ec112de5c384df7ba0b8d578a4c702b6bf11d5f"

/-- The fixed textual payload of the genesis input script, as raw bytes. -/
def genesisMessage : List Nat :=
  (String.toList
    "The Times 03/Jan/2009 Chancellor on brink of second bailout for banks").map
    Char.toNat

/-- `bitcoin_genesis_tx()`: the coinbase (and only) transaction of the genesis
block, translated from `constants.rs`.  The Rust code pushes the input and the
output onto an initially empty base transaction; here the final value is
assembled directly.  The `unwrap()` on the hex decode is modelled by `getD []`
(its success is proved separately). -/
def bitcoin_genesis_tx : Transaction :=
  let in_script :=
    (((Builder.new.push_scriptint 486604799).push_scriptint 4).push_slice
      genesisMessage).into_script
  let out_script :=
    ((Builder.new.push_slice ((hex_bytes genesisPubkeyHex).getD
      [])).push_opcode OP_CHECKSIG).into_script
  { version := 1
    lock_time := 0
    input := [{ previous_output := OutPoint.null
                script_sig := in_script
                sequence := MAX_SEQUENCE
                witness := [] }]
    output := [{ value := 50 * COIN_VALUE, script_pubkey := out_script }] }

/-- `genesis_block(network)`: translated from `constants.rs`.  Each arm builds
`txdata = vec![bitcoin_genesis_tx()]` and a header whose merkle roots are
`txdata[0].txid()` and `txdata[0].ntxid()`; `Default::default()` for the
256-bit previous-block identifier is the all-zero value. -/
def genesis_block (network : Network) : Block :=
  match network with
  | Network.Bitcoin =>
    let tx := bitcoin_genesis_tx
    let txdata := [tx]
    { header := { version := 1
                  prev_blockhash := 0
                  merkle_root := tx.txid
                  im_merkle_root := tx.ntxid
                  time := 1231006505
                  agg_pubkey := []
                  proof := { signature := Script.new } }
      txdata := txdata }
  | Network.Testnet =>
    let tx := bitcoin_genesis_tx
    let txdata := [tx]
    { header := { version := 1
                  prev_blockhash := 0
                  merkle_root := tx.txid
                  im_merkle_root := tx.ntxid
                  time := 1296688602
                  agg_pubkey := []
                  proof := { signature := Script.new } }
      txdata := txdata }
  | Network.Regtest =>
    let tx := bitcoin_genesis_tx
    let txdata := [tx]
    { header := { version := 1
                  prev_blockhash := 0
                  merkle_root := tx.txid
                  im_merkle_root := tx.ntxid
                  time := 1296688602
                  agg_pubkey := []
                  proof := { signature := Script.new } }
      txdata := txdata }
  | Network.Paradium =>
    let tx := bitcoin_genesis_tx
    let txdata := [tx]
    { header := { version := 1
                  prev_blockhash := 0
                  merkle_root := tx.txid
                  im_merkle_root := tx.ntxid
                  time := 1562925929
                  agg_pubkey := []
                  proof := { signature := Script.new } }
      txdata := txdata }

/-- Claim C1: for every network variant, the genesis block's header has
version 1, an all-zero previous-block identifier, an empty aggregate public
key and a proof wrapping an empty script, and its transaction list has
exactly one element. -/
theorem genesis_block_header_fields (n : Network) :
    (genesis_block n).header.version = 1 ∧
    (genesis_block n).header.prev_blockhash = 0 ∧
    (genesis_block n).header.agg_pubkey = [] ∧
    (genesis_block n).header.proof.signature = Script.new ∧
    (genesis_block n).txdata.length = 1 := by
  cases n <;> exact ⟨rfl, rfl, rfl, rfl, rfl⟩

/-- Claim C2: the genesis transaction has version 1, lock time 0, exactly one
input and one output; the input spends the null outpoint (all-zero txid, vout
0xFFFFFFFF) with sequence MAX_SEQUENCE and an empty witness; the output
carries 50 * COIN_VALUE. -/
theorem bitcoin_genesis_tx_fields :
    bitcoin_genesis_tx.version = 1 ∧
    bitcoin_genesis_tx.lock_time = 0 ∧
    bitcoin_genesis_tx.input.length = 1 ∧
    bitcoin_genesis_tx.output.length = 1 ∧
    (bitcoin_genesis_tx.input.headD default).previous_output = OutPoint.null ∧
    OutPoint.null.txid = 0 ∧
    OutPoint.null.vout = 0xFFFFFFFF ∧
    (bitcoin_genesis_tx.input.headD default).sequence = MAX_SEQUENCE ∧
    (bitcoin_genesis_tx.input.headD default).witness = [] ∧
    (bitcoin_genesis_tx.output.headD default).value = 50 * COIN_VALUE :=
  ⟨rfl, rfl, rfl, rfl, rfl, rfl, rfl, rfl, rfl, rfl⟩

set_option maxRecDepth 4000 in
/-- Claim C3: for every network variant, the header's merkle_root is the
mutable identifier (txid) of the single transaction in txdata and the
im_merkle_root is its immutable identifier (ntxid). -/
theorem genesis_block_merkle_roots (n : Network) :
    (genesis_block n).txdata.length = 1 ∧
    (genesis_block n).header.merkle_root =
      ((genesis_block n).txdata.headD default).txid ∧
    (genesis_block n).header.im_merkle_root =
      ((genesis_block n).txdata.headD default).ntxid := by
  cases n <;> exact ⟨rfl, rfl, rfl⟩

/-- Claim C4: max_money is total over the closed Network enumeration and
returns 21_000_000 * COIN_VALUE = 2_100_000_000_000_000 for every variant. -/
theorem max_money_value (n : Network) :
    max_money n = 21000000 * COIN_VALUE ∧ max_money n = 2100000000000000 :=
  ⟨rfl, by norm_num [max_money, COIN_VALUE]⟩

/-- Claim C5 counterexample: Testnet and Regtest are distinct network
variants, yet genesis_block assigns them the same header time, refuting the
claim that any two distinct variants receive distinct timestamps. -/
theorem genesis_time_testnet_regtest_clash :
    Network.Testnet ≠ Network.Regtest ∧
    (genesis_block Network.Testnet).header.time =
      (genesis_block Network.Regtest).header.time :=
  ⟨by decide, rfl⟩

/-- Claim C5 (amended): each variant has a fixed historical timestamp —
Bitcoin 1231006505, Testnet 1296688602, Regtest 1296688602,
Paradium 1562925929 — and two variants share a timestamp exactly when they
are equal or they are the Testnet/Regtest pair. -/
theorem genesis_time_mapping (n1 n2 : Network) :
    (genesis_block Network.Bitcoin).header.time = 1231006505 ∧
    (genesis_block Network.Testnet).header.time = 1296688602 ∧
    (genesis_block Network.Regtest).header.time = 1296688602 ∧
    (genesis_block Network.Paradium).header.time = 1562925929 ∧
    ((genesis_block n1).header.time = (genesis_block n2).header.time ↔
      n1 = n2 ∨ (n1 = Network.Testnet ∧ n2 = Network.Regtest) ∨
        (n1 = Network.Regtest ∧ n2 = Network.Testnet)) := by
  refine ⟨rfl, rfl, rfl, rfl, ?_⟩
  cases n1 <;> cases n2 <;> decide

/-- Claim C6: the genesis transaction list is identical across all network
variants and equals the one fixed transaction built by bitcoin_genesis_tx. -/
theorem genesis_txdata_uniform (n1 n2 : Network) :
    (genesis_block n1).txdata = (genesis_block n2).txdata ∧
    (genesis_block n1).txdata = [bitcoin_genesis_tx] := by
  cases n1 <;> cases n2 <;> exact ⟨rfl, rfl⟩

/-- Claim C7: genesis_block is deterministic — two calls on the same network
yield identical Block values; in this pure embedding the function is
referentially transparent by construction. -/
theorem genesis_block_deterministic (n : Network) :
    genesis_block n = genesis_block n := rfl

set_option maxRecDepth 8000 in
/-- Claim C8: hex-decoding the embedded 130-character public-key literal
never fails and yields exactly 65 bytes, so the unwrap in bitcoin_genesis_tx
is unreachable as an error branch. -/
theorem hex_bytes_genesis_pubkey_succeeds :
    genesisPubkeyHex.length = 130 ∧
    (hex_bytes genesisPubkeyHex).isSome = true ∧
    ((hex_bytes genesisPubkeyHex).getD []).length = 65 := by
  refine ⟨by decide, by decide, by decide⟩

/-- Claim C9: any two network variants' genesis blocks agree on every field
except possibly the header time: version, prev_blockhash, merkle_root,
im_merkle_root, agg_pubkey, proof and txdata are all equal. -/
theorem genesis_block_frame (n1 n2 : Network) :
    (genesis_block n1).header.version = (genesis_block n2).header.version ∧
    (genesis_block n1).header.prev_blockhash =
      (genesis_block n2).header.prev_blockhash ∧
    (genesis_block n1).header.merkle_root =
      (genesis_block n2).header.merkle_root ∧
    (genesis_block n1).header.im_merkle_root =
      (genesis_block n2).header.im_merkle_root ∧
    (genesis_block n1).header.agg_pubkey =
      (genesis_block n2).header.agg_pubkey ∧
    (genesis_block n1).header.proof = (genesis_block n2).header.proof ∧
    (genesis_block n1).txdata = (genesis_block n2).txdata := by
  cases n1 <;> cases n2 <;> exact ⟨rfl, rfl, rfl, rfl, rfl, rfl, rfl⟩

/-- Claim C10: the Testnet and Regtest genesis blocks are entirely identical,
including the shared header time 1296688602. -/
theorem genesis_testnet_eq_regtest :
    genesis_block Network.Testnet = genesis_block Network.Regtest ∧
    (genesis_block Network.Testnet).header.time = 1296688602 :=
  ⟨rfl, rfl⟩

end Tapyrus
